import Mathlib

/-!
# MORPHY — verification of the training-load / decision / compliance core

Shallow embedding of the algorithmic core of the MORPHY repository:

* `app/services/athlete_state.py`   — `AthleteStateCalculator` (Banister-style load model)
* `app/services/decision_engine.py` — rich dual-suggestion `DecisionEngine`
* `app/routers/decision.py`         — terse `calculate_athlete_state` / `generate_decision`
* `app/services/compliance_engine.py` — `karvonen_zone`, `infer_compliance`,
  `run_compliance_inference` (the per-day backfill with upsert)
* `app/services/learning_engine.py` — `analyze_and_update` threshold learner
* `app/services/periodization_engine.py` — `detect_phase`

Modelling conventions:

* Python floats are modelled as exact rationals `ℚ`; values produced by
  `math.exp` / float `**` are modelled in `ℝ` with `Real.exp` / real powers.
* `round(x, n)` is Python's round-half-to-even, modelled exactly by `rhe`
  and `pyRound` below on the idealized (exact) values.
* Timestamps are rationals counting days since an arbitrary epoch; a calendar
  day is the unit interval `[d, d+1)` for an integer `d`, `strftime("%Y-%m-%d")`
  bucketing becomes `Int.floir`-style flooring to the day index.
* Databases are lists of records; SQLAlchemy's `scalar_one_or_none` is
  modelled by case analysis on the list of matching records (0 / 1 / many,
  the many case raising, which the backfill catches and skips).
* Human-readable presentation strings that interpolate numeric values
  (`reasoning`, `compliance_reason`, `description`, emoji fields) are not
  modelled; no claim concerns them.
-/

namespace Morphy

/-! ## Python `round` (banker's rounding) on an ordered field -/

/-- Round-half-to-even to an integer, the rounding used by Python's built-in
`round` (on the idealized exact value). -/
def rhe {α : Type} [LinearOrderedField α] [FloorRing α] (x : α) : ℤ :=
  if Int.fract x < 1/2 then ⌊x⌋
  else if (1/2 : α) < Int.fract x then ⌊x⌋ + 1
  else if ⌊x⌋ % 2 = 0 then ⌊x⌋ else ⌊x⌋ + 1

/-- Python `round(x, n)`: round-half-to-even at `n` decimal digits. -/
def pyRound {α : Type} [LinearOrderedField α] [FloorRing α] (n : ℕ) (x : α) : α :=
  (rhe (x * 10 ^ n) : α) / 10 ^ n

section RheLemmas

variable {α : Type} [LinearOrderedField α] [FloorRing α]

theorem rhe_intCast (n : ℤ) : rhe (n : α) = n := by
  simp [rhe, Int.fract_intCast]

theorem rhe_zero : rhe (0 : α) = 0 := by
  simpa using rhe_intCast (α := α) 0

theorem floor_le_rhe (x : α) : ⌊x⌋ ≤ rhe x := by
  unfold rhe
  split
  · exact le_refl _
  · split
    · exact le_of_lt (lt_add_one _)
    · split
      · exact le_refl _
      · exact le_of_lt (lt_add_one _)

theorem rhe_le_floor_add_one (x : α) : rhe x ≤ ⌊x⌋ + 1 := by
  unfold rhe
  split
  · exact le_of_lt (lt_add_one _)
  · split
    · exact le_refl _
    · split
      · exact le_of_lt (lt_add_one _)
      · exact le_refl _

theorem rhe_mono {x y : α} (h : x ≤ y) : rhe x ≤ rhe y := by
  rcases lt_or_le ⌊x⌋ ⌊y⌋ with hf | hf
  · calc rhe x ≤ ⌊x⌋ + 1 := rhe_le_floor_add_one x
      _ ≤ ⌊y⌋ := by omega
      _ ≤ rhe y := floor_le_rhe y
  · have hfe : ⌊x⌋ = ⌊y⌋ := le_antisymm (Int.floor_le_floor h) hf
    have hfr : Int.fract x ≤ Int.fract y := by
      have hx : Int.fract x = x - ⌊x⌋ := (Int.self_sub_floor x).symm
      have hy : Int.fract y = y - ⌊y⌋ := (Int.self_sub_floor y).symm
      rw [hx, hy, hfe]
      exact sub_le_sub_right h _
    unfold rhe
    rw [hfe]
    split
    · exact floor_le_rhe y
    · rename_i h1
      push_neg at h1
      have h1y : ¬ Int.fract y < 1/2 := by
        push_neg
        exact le_trans h1 hfr
      split
      · rename_i h2
        have h2y : (1/2 : α) < Int.fract y := lt_of_lt_of_le h2 hfr
        simp only [if_neg h1y, if_pos h2y]
        exact le_refl _
      · rename_i h2
        push_neg at h2
        have hhalf : Int.fract x = 1/2 := le_antisymm h2 h1
        rcases lt_or_le (1/2 : α) (Int.fract y) with h3 | h3
        · simp only [if_neg h1y, if_pos h3]
          split <;> omega
        · have h3e : Int.fract y = 1/2 := by
            apply le_antisymm h3
            rw [← hhalf]
            exact hfr
          simp only [if_neg h1y, h3e]
          norm_num

theorem rhe_nonneg {x : α} (h : 0 ≤ x) : 0 ≤ rhe x := by
  have := rhe_mono (α := α) h
  rwa [rhe_zero] at this

theorem one_le_rhe {x : α} (h : 1 ≤ x) : 1 ≤ rhe x := by
  have h1 : (1 : ℤ) ≤ ⌊x⌋ := by exact_mod_cast Int.le_floor.2 (by exact_mod_cast h)
  exact le_trans h1 (floor_le_rhe x)

theorem pyRound_zero (n : ℕ) : pyRound (α := α) n 0 = 0 := by
  simp [pyRound, rhe_zero]

theorem pyRound_mono (n : ℕ) {x y : α} (h : x ≤ y) : pyRound n x ≤ pyRound n y := by
  unfold pyRound
  have hp : (0 : α) < 10 ^ n := by positivity
  apply div_le_div_of_nonneg_right _ hp.le
  exact_mod_cast rhe_mono (mul_le_mul_of_nonneg_right h (le_of_lt hp))

theorem pyRound_nonneg (n : ℕ) {x : α} (h : 0 ≤ x) : 0 ≤ pyRound n x := by
  have := pyRound_mono (α := α) n h
  rwa [pyRound_zero] at this

theorem pyRound_intCast (n : ℕ) (z : ℤ) : pyRound n ((z : α)) = (z : α) := by
  unfold pyRound
  rw [show ((z : α) * 10 ^ n) = (((z * 10 ^ n : ℤ)) : α) by push_cast; ring, rhe_intCast]
  push_cast
  rw [mul_div_assoc, div_self (by positivity), mul_one]

theorem pyRound_pos (n : ℕ) {x : α} (h : 1 ≤ x * 10 ^ n) : 0 < pyRound n x := by
  unfold pyRound
  have hp : (0 : α) < 10 ^ n := by positivity
  apply div_pos _ hp
  exact_mod_cast lt_of_lt_of_le zero_lt_one (by exact_mod_cast one_le_rhe h)

end RheLemmas

/-! ## Adaptive Threshold Learner (`app/services/learning_engine.py`)

`AthleteThresholdAdjustment` (from `app/models/models.py`) with the column
defaults; `analyze_and_update` modelled as a pure function from the loaded
feedback list and the current adjustment row to the updated row.  The summary
dict it returns and the SQL limit-100 query are not part of the model: the
feedback argument stands for whatever list the query returned. -/

/-- A loaded `DecisionFeedback` row, restricted to the fields the learner
reads (`action`, `followed`). -/
structure LearnerFeedback where
  action : String
  followed : Bool

/-- `AthleteThresholdAdjustment` ORM row. -/
structure ThresholdAdjustment where
  tsb_rest_multiplier : ℚ
  tsb_reduce_multiplier : ℚ
  acwr_danger_multiplier : ℚ
  acwr_caution_multiplier : ℚ
  readiness_low_multiplier : ℚ
  rest_followed : ℕ
  rest_ignored : ℕ
  reduce_followed : ℕ
  reduce_ignored : ℕ
  increase_followed : ℕ
  increase_ignored : ℕ
  total_analyzed : ℕ
  learning_speed : Option String
  custom_min_signals : Option ℕ

/-- A freshly created `AthleteThresholdAdjustment`: the column defaults of
`app/models/models.py` (all multipliers 1.0, counters 0, speed "moderate"). -/
def freshAdjustment : ThresholdAdjustment :=
  { tsb_rest_multiplier := 1, tsb_reduce_multiplier := 1, acwr_danger_multiplier := 1
    acwr_caution_multiplier := 1, readiness_low_multiplier := 1
    rest_followed := 0, rest_ignored := 0, reduce_followed := 0, reduce_ignored := 0
    increase_followed := 0, increase_ignored := 0, total_analyzed := 0
    learning_speed := some "moderate", custom_min_signals := some 5 }

/-- `clamp` of `learning_engine.py`: clip a multiplier to `[0.70, 1.30]`. -/
def clamp (v : ℚ) : ℚ := max 0.70 (min 1.30 v)

/-- `get_min_signals`: `custom_min_signals or 5` for "custom" speed
(Python `or` maps both `None` and `0` to 5), else the `MIN_SIGNALS` table with
default 5; `adj.learning_speed or "moderate"` treats `None`/`""` as "moderate". -/
def getMinSignals (adj : ThresholdAdjustment) : ℕ :=
  let speed := match adj.learning_speed with
    | none => "moderate"
    | some "" => "moderate"
    | some s => s
  if speed = "custom" then
    match adj.custom_min_signals with
    | none => 5
    | some 0 => 5
    | some k => k
  else if speed = "conservative" then 10
  else if speed = "moderate" then 5
  else if speed = "fast" then 3
  else 5

/-- `action_map` of `analyze_and_update` followed by the `signals` membership
test: maps a stored action to one of the four engine categories, or `none`
(the record is skipped). -/
def learnerCategory (action : String) : Option String :=
  let mapped :=
    if action = "rest" then "active_recovery"
    else if action = "reduce" then "easy"
    else if action = "increase" then "quality"
    else action
  if mapped = "active_recovery" ∨ mapped = "easy" ∨ mapped = "moderate" ∨ mapped = "quality"
  then some mapped else none

/-- Number of loaded feedback rows that land in category `cat` with
`followed` equal to `fl`. -/
def signalCount (feedbacks : List LearnerFeedback) (cat : String) (fl : Bool) : ℕ :=
  (feedbacks.filter (fun f => learnerCategory f.action = some cat && f.followed = fl)).length

/-- "AJUSTE 1/2" of `analyze_and_update`: one per-category multiplier
adjustment (the `active_recovery` and `easy` blocks are identical up to the
high ignore-rate threshold `hi`, 0.6 resp. 0.65). -/
def adjustCategory (old : ℚ) (min_signals total ignored : ℕ) (hi : ℚ) : ℚ :=
  if total ≥ min_signals then
    if (ignored : ℚ) / (total : ℚ) > hi then clamp (old + 0.03)
    else if (ignored : ℚ) / (total : ℚ) < 0.2 ∧ total ≥ min_signals * 2 then
      clamp (old - 0.03 * 0.5)
    else old
  else old

/-- "AJUSTE 3" of `analyze_and_update`: the cross-category fatigue-tolerance
adjustment of `tsb_rest_multiplier`. -/
def adjustTsbRest (old : ℚ) (min_signals all_total all_ignored : ℕ) : ℚ :=
  if all_total ≥ min_signals * 2 then
    if (all_ignored : ℚ) / (all_total : ℚ) > 0.7 then clamp (old + 0.03 * 0.5)
    else old
  else old

/-- `analyze_and_update` (learning_engine.py): recompute the per-category
followed/ignored counts from the loaded feedback, nudge the three adjusted
multipliers through `clamp`, and overwrite the stored counters.  With an empty
feedback list the function returns `{"status": "no_feedback"}` before touching
the row.  The summary dict it returns is not modelled. -/
def analyzeAndUpdate (adj : ThresholdAdjustment) (feedbacks : List LearnerFeedback) :
    ThresholdAdjustment :=
  if feedbacks.isEmpty then adj
  else
    let min_signals := getMinSignals adj
    let arF := signalCount feedbacks "active_recovery" true
    let arI := signalCount feedbacks "active_recovery" false
    let eaF := signalCount feedbacks "easy" true
    let eaI := signalCount feedbacks "easy" false
    let moF := signalCount feedbacks "moderate" true
    let moI := signalCount feedbacks "moderate" false
    let quF := signalCount feedbacks "quality" true
    let quI := signalCount feedbacks "quality" false
    let all_total := arF + arI + eaF + eaI + moF + moI + quF + quI
    { adj with
      acwr_danger_multiplier :=
        adjustCategory adj.acwr_danger_multiplier min_signals (arF + arI) arI 0.6
      acwr_caution_multiplier :=
        adjustCategory adj.acwr_caution_multiplier min_signals (eaF + eaI) eaI 0.65
      tsb_rest_multiplier :=
        adjustTsbRest adj.tsb_rest_multiplier min_signals all_total (arI + eaI + moI + quI)
      rest_followed := arF, rest_ignored := arI
      reduce_followed := eaF, reduce_ignored := eaI
      increase_followed := quF, increase_ignored := quI
      total_analyzed := all_total }

/-- All five multipliers of the profile lie in `[0.70, 1.30]`. -/
def multipliersInRange (adj : ThresholdAdjustment) : Prop :=
  (0.70 ≤ adj.tsb_rest_multiplier ∧ adj.tsb_rest_multiplier ≤ 1.30) ∧
  (0.70 ≤ adj.tsb_reduce_multiplier ∧ adj.tsb_reduce_multiplier ≤ 1.30) ∧
  (0.70 ≤ adj.acwr_danger_multiplier ∧ adj.acwr_danger_multiplier ≤ 1.30) ∧
  (0.70 ≤ adj.acwr_caution_multiplier ∧ adj.acwr_caution_multiplier ≤ 1.30) ∧
  (0.70 ≤ adj.readiness_low_multiplier ∧ adj.readiness_low_multiplier ≤ 1.30)

theorem clamp_mem (v : ℚ) : 0.70 ≤ clamp v ∧ clamp v ≤ 1.30 := by
  unfold clamp
  constructor
  · exact le_max_left _ _
  · exact max_le (by norm_num) (min_le_left _ _)

theorem adjustCategory_mem {old : ℚ} (min_signals total ignored : ℕ) (hi : ℚ)
    (h : 0.70 ≤ old ∧ old ≤ 1.30) :
    0.70 ≤ adjustCategory old min_signals total ignored hi ∧
      adjustCategory old min_signals total ignored hi ≤ 1.30 := by
  unfold adjustCategory
  split
  · split
    · exact clamp_mem _
    · split
      · exact clamp_mem _
      · exact h
  · exact h

theorem adjustTsbRest_mem {old : ℚ} (min_signals all_total all_ignored : ℕ)
    (h : 0.70 ≤ old ∧ old ≤ 1.30) :
    0.70 ≤ adjustTsbRest old min_signals all_total all_ignored ∧
      adjustTsbRest old min_signals all_total all_ignored ≤ 1.30 := by
  unfold adjustTsbRest
  split
  · split
    · exact clamp_mem _
    · exact h
  · exact h

theorem analyzeAndUpdate_preserves_range (adj : ThresholdAdjustment)
    (feedbacks : List LearnerFeedback) (h : multipliersInRange adj) :
    multipliersInRange (analyzeAndUpdate adj feedbacks) := by
  obtain ⟨h1, h2, h3, h4, h5⟩ := h
  unfold analyzeAndUpdate
  split
  · exact ⟨h1, h2, h3, h4, h5⟩
  · exact ⟨adjustTsbRest_mem _ _ _ h1, h2, adjustCategory_mem _ _ _ _ h3,
      adjustCategory_mem _ _ _ _ h4, h5⟩

/-- **C4.** Starting from a freshly created `AthleteThresholdAdjustment`
(all multipliers 1.0), after any sequence of `analyze_and_update` runs over
arbitrary feedback histories, every multiplier of the profile remains within
`[0.70, 1.30]`: the three multipliers the learner writes pass through `clamp`
on every assignment, and the other two are never modified. -/
theorem multipliers_in_range_after_any_runs (histories : List (List LearnerFeedback)) :
    multipliersInRange (histories.foldl analyzeAndUpdate freshAdjustment) := by
  have hfresh : multipliersInRange freshAdjustment := by
    unfold multipliersInRange freshAdjustment
    norm_num
  have : ∀ (hs : List (List LearnerFeedback)) (adj : ThresholdAdjustment),
      multipliersInRange adj → multipliersInRange (hs.foldl analyzeAndUpdate adj) := by
    intro hs
    induction hs with
    | nil => intro adj h; exact h
    | cons fb rest ih =>
        intro adj h
        exact ih _ (analyzeAndUpdate_preserves_range adj fb h)
  exact this histories freshAdjustment hfresh

/-! ## Feedback records (`DecisionFeedback` in `app/models/models.py`)

`date` is the stored datetime (rational days since the epoch); `acwr`,
`readiness`, `tsb` come from the router state calculator and are real-valued;
`compliance_reason` (a presentation string) and `id`/`created_at` are not
modelled. -/

structure FeedbackRecord where
  user_id : ℕ
  date : ℚ
  action : String
  followed : Bool
  acwr : ℝ
  readiness : ℝ
  tsb : ℝ
  note : Option String
  auto_inferred : Bool
  activity_avg_hr : Option ℚ
  activity_duration_min : Option ℚ
  detected_zone : Option String

/-! ## Periodization Phase Detector (`app/services/periodization_engine.py`) -/

/-- `TrainingPhase`, restricted to the non-presentation fields (`emoji`,
`description` and the `metrics_used` snapshot interpolate numbers and are not
modelled). -/
structure TrainingPhase where
  phase : String
  label : String
  recommendation : String
  confidence : ℚ

/-- The rows the 7-day compliance query of `detect_phase` ranges over:
auto-inferred feedback of this user with `date >= cutoff`, where
`cutoff = (utcnow() - timedelta(days=7)).date()` is midnight of the calendar
day seven days ago. -/
def complianceWindow (store : List FeedbackRecord) (u : ℕ) (now : ℚ) :
    List FeedbackRecord :=
  store.filter (fun r =>
    decide (r.user_id = u ∧ r.auto_inferred = true ∧ ((⌊now⌋ : ℚ) - 7) ≤ r.date))

/-- `compliance_7d` of `detect_phase`: percentage of followed rows among the
7-day auto-inferred rows, defaulting to 50.0 when there are none. -/
def compliance7d (store : List FeedbackRecord) (u : ℕ) (now : ℚ) : ℚ :=
  let rel := complianceWindow store u now
  let total := rel.length
  let followed := (rel.filter (fun r => r.followed)).length
  if total > 0 then (followed : ℚ) / (total : ℚ) * 100 else 50.0

/-- `increase_compliance` of `detect_phase`: same ratio restricted to rows
whose action is "increase".  It only feeds the (unmodelled) metrics snapshot;
the classification logic never reads it. -/
def increaseCompliance (store : List FeedbackRecord) (u : ℕ) (now : ℚ) : ℚ :=
  let rel := (complianceWindow store u now).filter (fun r => r.action == "increase")
  let total := rel.length
  let followed := (rel.filter (fun r => r.followed)).length
  if total > 0 then (followed : ℚ) / (total : ℚ) * 100 else 50.0

/-- `detect_phase` (periodization_engine.py).  The function body ends after
the "PICO" branch, so Python returns `None` when neither branch fires. -/
def detectPhase (u : ℕ) (atl ctl tsb acwr : ℚ) (store : List FeedbackRecord)
    (now : ℚ) : Option TrainingPhase :=
  let compliance_7d := compliance7d store u now
  if tsb < -20 ∨ acwr > 1.3 ∨ compliance_7d < 35 then
    some { phase := "descarga", label := "Semana de Descarga"
           recommendation := "Prioriza Z1-Z2, sesiones < 45 min, mucho sueño."
           confidence := min 0.95 (0.70 + |tsb| * 0.01) }
  else if ctl ≥ 60 ∧ tsb ≥ -5 ∧ compliance_7d ≥ 70 then
    some { phase := "pico", label := "Forma de Pico"
           recommendation := "Mantén ritmo, agrega 1 sesión de calidad semanal. Ideal para competir."
           confidence := 0.85 }
  else none

/-- **C8.** The deload branch fires (with highest priority) exactly on
`TSB < −20 ∨ ACWR > 1.3 ∨ 7-day compliance < 35`, with confidence
`min 0.95 (0.70 + |TSB| · 0.01)`, which is capped at 0.95 and grows as TSB
drops further below −20; otherwise `CTL ≥ 60 ∧ TSB ≥ −5 ∧ compliance ≥ 70`
yields the peak phase with fixed confidence 0.85. -/
theorem deload_and_peak_classification
    (u : ℕ) (atl ctl tsb tsb' acwr : ℚ) (store : List FeedbackRecord) (now : ℚ) :
    (tsb < -20 ∨ acwr > 1.3 ∨ compliance7d store u now < 35 →
      ∃ p, detectPhase u atl ctl tsb acwr store now = some p ∧
        p.phase = "descarga" ∧
        p.confidence = min 0.95 (0.70 + |tsb| * 0.01) ∧ p.confidence ≤ 0.95) ∧
    (¬(tsb < -20 ∨ acwr > 1.3 ∨ compliance7d store u now < 35) →
      ctl ≥ 60 ∧ tsb ≥ -5 ∧ compliance7d store u now ≥ 70 →
      ∃ p, detectPhase u atl ctl tsb acwr store now = some p ∧
        p.phase = "pico" ∧ p.confidence = 0.85) ∧
    (tsb ≤ tsb' → tsb' < -20 →
      ∀ p p', detectPhase u atl ctl tsb acwr store now = some p →
        detectPhase u atl ctl tsb' acwr store now = some p' →
        p'.confidence ≤ p.confidence) := by
  refine ⟨?_, ?_, ?_⟩
  · intro hd
    have heq : detectPhase u atl ctl tsb acwr store now =
        some { phase := "descarga", label := "Semana de Descarga"
               recommendation := "Prioriza Z1-Z2, sesiones < 45 min, mucho sueño."
               confidence := min 0.95 (0.70 + |tsb| * 0.01) } := by
      unfold detectPhase
      rw [if_pos hd]
    exact ⟨_, heq, rfl, rfl, min_le_left _ _⟩
  · intro hd hp
    have heq : detectPhase u atl ctl tsb acwr store now =
        some { phase := "pico", label := "Forma de Pico"
               recommendation := "Mantén ritmo, agrega 1 sesión de calidad semanal. Ideal para competir."
               confidence := 0.85 } := by
      unfold detectPhase
      rw [if_neg hd, if_pos hp]
    exact ⟨_, heq, rfl, rfl⟩
  · intro hle h2 p p' hp hp'
    have h1 : tsb < -20 := lt_of_le_of_lt hle h2
    unfold detectPhase at hp hp'
    rw [if_pos (Or.inl h1)] at hp
    rw [if_pos (Or.inl h2)] at hp'
    obtain rfl : p = _ := (Option.some_injective _ hp.symm)
    obtain rfl : p' = _ := (Option.some_injective _ hp'.symm)
    simp only
    apply min_le_min (le_refl _)
    have habs : |tsb'| ≤ |tsb| := by
      rw [abs_of_neg (by linarith : tsb' < 0), abs_of_neg (by linarith : tsb < 0)]
      linarith
    nlinarith [habs]

/-- Witness for C8 at a concrete fatigued state. -/
theorem deload_witness :
    ∃ p, detectPhase 0 0 0 (-30) 1 [] 100 = some p ∧
      p.phase = "descarga" ∧
      p.confidence = min 0.95 (0.70 + |(-30 : ℚ)| * 0.01) ∧ p.confidence ≤ 0.95 :=
  (deload_and_peak_classification 0 0 0 (-30) (-25) 1 [] 100).1 (Or.inl (by norm_num))

/-- **C10.** When neither the deload nor the peak condition holds,
`detect_phase` produces no phase at all (Python falls off the end of the
function and returns `None`); and with zero auto-inferred records in the
7-day window the compliance rate defaults to 50%. -/
theorem no_phase_when_no_branch_fires
    (u : ℕ) (atl ctl tsb acwr : ℚ) (store : List FeedbackRecord) (now : ℚ) :
    (¬(tsb < -20 ∨ acwr > 1.3 ∨ compliance7d store u now < 35) →
      ¬(ctl ≥ 60 ∧ tsb ≥ -5 ∧ compliance7d store u now ≥ 70) →
      detectPhase u atl ctl tsb acwr store now = none) ∧
    (complianceWindow store u now = [] → compliance7d store u now = 50) := by
  constructor
  · intro hd hp
    unfold detectPhase
    rw [if_neg hd, if_neg hp]
  · intro h
    unfold compliance7d
    rw [h]
    norm_num

/-- Witness for C10: a typical balanced state (TSB 0, ACWR 1.0, CTL 50) with
an empty feedback store yields no phase, and the empty 7-day window defaults
the compliance rate to 50%. -/
theorem no_phase_witness :
    detectPhase 0 40 50 0 1 [] 100 = none ∧ compliance7d [] 0 100 = 50 := by
  have h := no_phase_when_no_branch_fires 0 40 50 0 1 [] 100
  have hw : complianceWindow [] 0 100 = [] := rfl
  have hc : compliance7d [] 0 100 = 50 := h.2 hw
  refine ⟨h.1 ?_ ?_, hc⟩
  · rw [hc]; push_neg; norm_num
  · rw [hc]; push_neg; intro _ _; norm_num

/-! ## Compliance inference (`app/services/compliance_engine.py`) -/

/-- `karvonen_zone`: classify an average heart rate into zones 1–5
(0 when there is no usable data). -/
def karvonenZone (avg_hr max_hr rest_hr : ℚ) : ℕ :=
  if avg_hr ≤ 0 ∨ max_hr ≤ rest_hr then 0
  else
    let pct := (avg_hr - rest_hr) / (max_hr - rest_hr)
    if pct < 0.50 then 1
    else if pct < 0.60 then 1
    else if pct < 0.70 then 2
    else if pct < 0.80 then 3
    else if pct < 0.90 then 4
    else 5

/-- Python `str.lower()`, modelled per character (all action strings in this
code base are ASCII, where `Char.toLower` agrees with Python). -/
def pyLower (s : String) : String := String.mk (s.data.map Char.toLower)

/-- `infer_compliance`, returning `(followed, zone_label)`.  The
human-readable `reason` string (third component in Python) interpolates
numbers and is not modelled.  Python's truthiness test
`not activity_avg_hr or activity_duration_min is None` treats both `None`
and `0` heart rate as "no activity". -/
def inferCompliance (decision_action : String) (activity_avg_hr : Option ℚ)
    (activity_duration_min : Option ℚ) (max_hr rest_hr : ℚ) : Bool × String :=
  let action := pyLower decision_action
  if activity_avg_hr = none ∨ activity_avg_hr = some 0 ∨ activity_duration_min = none then
    if action = "rest" then (true, "none") else (false, "none")
  else
    let hr := activity_avg_hr.getD 0
    let dur := activity_duration_min.getD 0
    let zone := karvonenZone hr max_hr rest_hr
    let zone_label := if zone > 0 then "Z" ++ toString zone else "Z?"
    if action = "rest" then
      if zone ≤ 1 ∧ dur ≤ 25 then (true, zone_label) else (false, zone_label)
    else if action = "reduce" then
      if zone ≤ 2 then (true, zone_label) else (false, zone_label)
    else if action = "maintain" then
      if 1 ≤ zone ∧ zone ≤ 3 then (true, zone_label) else (false, zone_label)
    else if action = "increase" then
      if 3 ≤ zone then (true, zone_label) else (false, zone_label)
    else (true, zone_label)

/-- **C9.** For a day with a qualifying main activity (positive average heart
rate and a duration value), any recommendation whose lowercased action is not
one of "rest"/"reduce"/"maintain"/"increase" falls through every dispatch
branch of `infer_compliance` into the final fallback, which judges the day
compliant regardless of the detected zone.  The richer Decision Engine's tags
"active_recovery", "easy", "moderate", "quality" are all of this kind. -/
theorem unknown_action_always_compliant (action : String)
    (hr dur max_hr rest_hr : ℚ) (hhr : 0 < hr)
    (hact : pyLower action ≠ "rest" ∧ pyLower action ≠ "reduce" ∧
      pyLower action ≠ "maintain" ∧ pyLower action ≠ "increase") :
    (inferCompliance action (some hr) (some dur) max_hr rest_hr).1 = true := by
  obtain ⟨h1, h2, h3, h4⟩ := hact
  have hcond : ¬((some hr : Option ℚ) = none ∨ (some hr : Option ℚ) = some 0 ∨
      (some dur : Option ℚ) = none) := by
    simp [hhr.ne']
  simp only [inferCompliance, if_neg hcond, if_neg h1, if_neg h2, if_neg h3, if_neg h4]

/-- Witness for C9: each of the four rich-engine action tags is judged
compliant for a concrete hard activity (HR 170 of 190, 60 minutes), even
though its zone (Z5) would violate e.g. a "rest" recommendation. -/
theorem unknown_action_witness :
    (inferCompliance "active_recovery" (some 170) (some 60) 190 60).1 = true ∧
    (inferCompliance "easy" (some 170) (some 60) 190 60).1 = true ∧
    (inferCompliance "moderate" (some 170) (some 60) 190 60).1 = true ∧
    (inferCompliance "quality" (some 170) (some 60) 190 60).1 = true :=
  ⟨unknown_action_always_compliant _ _ _ _ _ (by norm_num) (by refine ⟨?_, ?_, ?_, ?_⟩ <;> decide),
   unknown_action_always_compliant _ _ _ _ _ (by norm_num) (by refine ⟨?_, ?_, ?_, ?_⟩ <;> decide),
   unknown_action_always_compliant _ _ _ _ _ (by norm_num) (by refine ⟨?_, ?_, ?_, ?_⟩ <;> decide),
   unknown_action_always_compliant _ _ _ _ _ (by norm_num) (by refine ⟨?_, ?_, ?_, ?_⟩ <;> decide)⟩

/-! ## Training Load Estimator (`app/services/athlete_state.py`)

`AthleteStateCalculator` with its `ActivityData` input.  Values produced by
`math.exp` are modelled in `ℝ`; everything the code computes without
transcendental functions stays rational.  `now = datetime.utcnow()` is a
parameter (rational days since the epoch); `strftime("%Y-%m-%d")` day
bucketing is flooring to the integer day index. -/

structure ActivityData where
  date : ℚ
  activity_type : String
  duration_min : ℚ
  distance_km : ℚ
  elevation_m : ℚ
  avg_hr : Option ℚ
  max_hr : Option ℚ
  avg_pace : Option ℚ

structure AthleteState where
  acute_load : ℝ
  chronic_load : ℝ
  training_stress_balance : ℝ
  acwr : ℝ
  injury_risk : String
  readiness_score : ℝ
  days_analyzed : ℕ
  activities_count : ℕ
  last_activity_date : Option ℚ
  days_since_last : ℤ

/-- `_trimp_with_hr`: Banister TRIMP
`round(duration * hrr * 0.64 * exp(1.92 * hrr), 1)` with the heart-rate
reserve ratio clamped to `[0, 1]`.  Only called when `avg_hr` is present and
positive; `getD 0` stands for that guarded field access. -/
noncomputable def trimpWithHr (max_hr rest_hr : ℚ) (a : ActivityData) : ℝ :=
  let duration := a.duration_min
  let avg_hr := a.avg_hr.getD 0
  let hr_reserve : ℚ := max 0 (min 1 ((avg_hr - rest_hr) / (max_hr - rest_hr)))
  pyRound 1 ((duration : ℝ) * (hr_reserve : ℝ) * 0.64 *
    Real.exp (1.92 * (hr_reserve : ℝ)))

/-- The elevation adjustment inside `_estimated_load`, exactly as written in
the source: the `> 100` test comes first, so the `elif elevation_m > 300`
branch can never fire. -/
def elevFactor (elevation_m : ℚ) : ℚ :=
  if elevation_m > 100 then 1.15
  else if elevation_m > 300 then 1.3
  else 1.0

/-- `_estimated_load`: no-heart-rate load estimate from duration, a pace
bucket, an activity-type table and the elevation adjustment.  (The
`if avg_pace > 0 else 8` fallback inside the pace branch is dead code — the
branch is only entered when `avg_pace > 0` — and is therefore not modelled.) -/
def estimatedLoad (a : ActivityData) : ℚ :=
  let duration := a.duration_min
  let intensity : ℚ :=
    match a.avg_pace with
    | some pace =>
      if 0 < pace ∧ 0 < a.distance_km then
        if 1000 / (pace * 60) < 4.5 then 0.9
        else if 1000 / (pace * 60) < 5.5 then 0.75
        else if 1000 / (pace * 60) < 7.0 then 0.6
        else 0.45
      else 0.6
    | none => 0.6
  let type_factor : ℚ :=
    if a.activity_type = "Run" then 1.0
    else if a.activity_type = "WeightTraining" then 0.7
    else if a.activity_type = "Ride" then 0.8
    else if a.activity_type = "Swim" then 0.9
    else if a.activity_type = "Walk" then 0.4
    else if a.activity_type = "Hike" then 0.6
    else 0.6
  pyRound 1 (duration * intensity * type_factor * elevFactor a.elevation_m)

/-- `calculate_training_load`: TRIMP when a positive average heart rate is
known (`if activity.avg_hr and activity.avg_hr > 0`), else the estimate. -/
noncomputable def calculateTrainingLoad (max_hr rest_hr : ℚ) (a : ActivityData) : ℝ :=
  match a.avg_hr with
  | some h => if 0 < h then trimpWithHr max_hr rest_hr a else (estimatedLoad a : ℝ)
  | none => (estimatedLoad a : ℝ)

/-- The `daily_loads` dict of `calculate_state`: total load of the activities
whose calendar day (`strftime` key) is `k`. -/
noncomputable def dailyLoads (max_hr rest_hr : ℚ) (acts : List ActivityData) (k : ℤ) : ℝ :=
  ((acts.filter (fun a => decide (⌊a.date⌋ = k))).map (calculateTrainingLoad max_hr rest_hr)).sum

/-- `_exponential_load`: decayed sum of the daily loads of the last
`decay_days` calendar days anchored at `now`, normalized by the window
length. -/
noncomputable def exponentialLoad (max_hr rest_hr : ℚ) (acts : List ActivityData)
    (now : ℚ) (decay_days : ℕ) : ℝ :=
  (∑ i ∈ Finset.range decay_days,
      dailyLoads max_hr rest_hr acts (⌊now⌋ - i) * Real.exp (-(i : ℝ) / (decay_days : ℝ)))
    / (decay_days : ℝ)

/-- `_assess_injury_risk` from the (rounded) ACWR. -/
noncomputable def assessInjuryRisk (acwr : ℝ) : String :=
  if acwr < 0.8 then "low"
  else if acwr ≤ 1.3 then "low"
  else if acwr ≤ 1.5 then "moderate"
  else "high"

/-- `sorted(activities, key=date, reverse=True)[0].date`: the latest start
date.  Python raises on an empty list; `calculate_state` only reaches this
with a nonempty one, and the `[]` case here is an arbitrary default. -/
def lastActivityDate : List ActivityData → ℚ
  | [] => 0
  | a :: rest => rest.foldl (fun m b => max m b.date) a.date

/-- `_calculate_readiness`: base 50, TSB component (±25), ACWR component
(+15/−15/−5/0), days-since-last component (+5/+10/−5/0), clamped to
`[0, 100]`. -/
noncomputable def calculateReadiness (tsb acwr : ℝ) (acts : List ActivityData)
    (now : ℚ) : ℝ :=
  let score1 : ℝ := if 0 < tsb then 50 + min 25 (tsb * 2) else 50 + max (-25) (tsb * 1.5)
  let score2 : ℝ :=
    if 0.8 ≤ acwr ∧ acwr ≤ 1.3 then score1 + 15
    else if 1.5 < acwr then score1 - 15
    else if acwr < 0.5 then score1 - 5
    else score1
  let days_since : ℤ := ⌊now - lastActivityDate acts⌋
  let score3 : ℝ :=
    if days_since = 1 then score2 + 5
    else if days_since = 2 then score2 + 10
    else if 4 ≤ days_since then score2 - 5
    else score2
  max 0 (min 100 score3)

/-- `calculate_state`: the full `AthleteState`, with the zero-activity
default (`readiness 100`, risk "low", `days_since_last = 999`). -/
noncomputable def calculateState (max_hr rest_hr : ℚ) (acts : List ActivityData)
    (now : ℚ) : AthleteState :=
  if acts.isEmpty then
    { acute_load := 0, chronic_load := 0, training_stress_balance := 0, acwr := 0
      injury_risk := "low", readiness_score := 100, days_analyzed := 0
      activities_count := 0, last_activity_date := none, days_since_last := 999 }
  else
    let atl := exponentialLoad max_hr rest_hr acts now 7
    let ctl := exponentialLoad max_hr rest_hr acts now 42
    let tsb := ctl - atl
    let acwr : ℝ := if 0 < ctl then pyRound 2 (atl / ctl) else 0
    let last := lastActivityDate acts
    { acute_load := pyRound 1 atl, chronic_load := pyRound 1 ctl
      training_stress_balance := pyRound 1 tsb, acwr := acwr
      injury_risk := assessInjuryRisk acwr
      readiness_score := pyRound 1 (calculateReadiness tsb acwr acts now)
      days_analyzed := 42, activities_count := acts.length
      last_activity_date := some last, days_since_last := ⌊now - last⌋ }

/-- The failing input for C5: a 60-minute run with 350 m of elevation gain,
no heart rate and no pace. -/
def runElev350 : ActivityData :=
  { date := 0, activity_type := "Run", duration_min := 60, distance_km := 10
    elevation_m := 350, avg_hr := none, max_hr := none, avg_pace := none }

/-- **C5 (code evaluation at the failing input).**  The source tests
`elevation_m > 100` before `elevation_m > 300`, so the 1.3 multiplier branch
is unreachable: an activity with 350 m of gain gets the 1.15 multiplier and
load `round(60 * 0.6 * 1.0 * 1.15, 1) = 41.4`, not the 1.3 multiplier
(which would give 46.8) promised for gains above 300 m. -/
theorem elevation_factor_at_350 :
    elevFactor 350 = 1.15 ∧ estimatedLoad runElev350 = 41.4 := by
  refine ⟨by norm_num [elevFactor], ?_⟩
  show pyRound 1 (60 * 0.6 * 1.0 * elevFactor (350 : ℚ)) = 41.4
  norm_num [elevFactor, pyRound, rhe]

/-- **C7.** For positive duration and `rest_hr < max_hr`, the heart-rate
TRIMP is non-decreasing in the average heart rate (up to `max_hr`): the
clamped heart-rate-reserve fraction is monotone in the heart rate, `x ↦ x·e^(1.92x)`
is monotone on `[0, ∞)`, and so is the final half-even rounding. -/
theorem trimpWithHr_mono (max_hr rest_hr : ℚ) (a : ActivityData) (hr₁ hr₂ : ℚ)
    (hd : 0 < a.duration_min) (hprof : rest_hr < max_hr)
    (h12 : hr₁ ≤ hr₂) (hup : hr₂ ≤ max_hr) :
    trimpWithHr max_hr rest_hr { a with avg_hr := some hr₁ } ≤
      trimpWithHr max_hr rest_hr { a with avg_hr := some hr₂ } := by
  clear hup
  unfold trimpWithHr
  apply pyRound_mono
  have hden : (0 : ℚ) < max_hr - rest_hr := by linarith
  have hdiv : (hr₁ - rest_hr) / (max_hr - rest_hr) ≤ (hr₂ - rest_hr) / (max_hr - rest_hr) :=
    div_le_div_of_nonneg_right (by linarith) hden.le
  have hrr : max 0 (min 1 ((hr₁ - rest_hr) / (max_hr - rest_hr))) ≤
      max 0 (min 1 ((hr₂ - rest_hr) / (max_hr - rest_hr))) :=
    max_le_max (le_refl 0) (min_le_min (le_refl 1) hdiv)
  set q₁ : ℚ := max 0 (min 1 ((hr₁ - rest_hr) / (max_hr - rest_hr))) with hq₁
  set q₂ : ℚ := max 0 (min 1 ((hr₂ - rest_hr) / (max_hr - rest_hr))) with hq₂
  have h0 : (0 : ℚ) ≤ q₁ := le_max_left _ _
  have hrR : ((q₁ : ℝ)) ≤ (q₂ : ℝ) := by exact_mod_cast hrr
  have h0R : (0 : ℝ) ≤ (q₁ : ℝ) := by exact_mod_cast h0
  have hdR : (0 : ℝ) ≤ (a.duration_min : ℝ) := by exact_mod_cast hd.le
  have hmulbase : (a.duration_min : ℝ) * (q₁ : ℝ) * 0.64 ≤ (a.duration_min : ℝ) * (q₂ : ℝ) * 0.64 := by
    apply mul_le_mul_of_nonneg_right _ (by norm_num)
    exact mul_le_mul_of_nonneg_left hrR hdR
  have hexp : Real.exp (1.92 * (q₁ : ℝ)) ≤ Real.exp (1.92 * (q₂ : ℝ)) := by
    apply Real.exp_le_exp.mpr
    nlinarith
  exact mul_le_mul hmulbase hexp (Real.exp_pos _).le
    (by positivity)

/-- Witness for C7 at a concrete 45-minute run and heart rates 120 ≤ 150. -/
theorem trimpWithHr_mono_witness :
    trimpWithHr 190 60
      { date := 0, activity_type := "Run", duration_min := 45, distance_km := 10
        elevation_m := 0, avg_hr := some 120, max_hr := none, avg_pace := none } ≤
    trimpWithHr 190 60
      { date := 0, activity_type := "Run", duration_min := 45, distance_km := 10
        elevation_m := 0, avg_hr := some 150, max_hr := none, avg_pace := none } :=
  trimpWithHr_mono 190 60
    { date := 0, activity_type := "Run", duration_min := 45, distance_km := 10
      elevation_m := 0, avg_hr := none, max_hr := none, avg_pace := none }
    120 150 (by norm_num) (by norm_num) (by norm_num) (by norm_num)

/-! ### C6: ACWR versus chronic load -/

theorem exponentialLoad_nil (max_hr rest_hr : ℚ) (now : ℚ) (d : ℕ) :
    exponentialLoad max_hr rest_hr [] now d = 0 := by
  simp [exponentialLoad, dailyLoads]

theorem dailyLoads_singleton (max_hr rest_hr : ℚ) (a : ActivityData) (k : ℤ) :
    dailyLoads max_hr rest_hr [a] k =
      if ⌊a.date⌋ = k then calculateTrainingLoad max_hr rest_hr a else 0 := by
  by_cases h : ⌊a.date⌋ = k <;> simp [dailyLoads, h]

/-- The concrete activity for the C6 counterexample: a 60-minute run ten days
before `now = 100`, with no heart rate, no distance, no elevation. -/
def runDay90 : ActivityData :=
  { date := 90, activity_type := "Run", duration_min := 60, distance_km := 0
    elevation_m := 0, avg_hr := none, max_hr := none, avg_pace := none }

theorem load_runDay90 (max_hr rest_hr : ℚ) :
    calculateTrainingLoad max_hr rest_hr runDay90 = 36 := by
  show ((estimatedLoad runDay90 : ℚ) : ℝ) = 36
  have : estimatedLoad runDay90 = 36 := by
    show pyRound 1 (60 * 0.6 * 1.0 * elevFactor (0 : ℚ)) = 36
    norm_num [elevFactor, pyRound, rhe]
  rw [this]
  norm_num

theorem atl_runDay90 (max_hr rest_hr : ℚ) :
    exponentialLoad max_hr rest_hr [runDay90] 100 7 = 0 := by
  unfold exponentialLoad
  rw [Finset.sum_eq_zero, zero_div]
  intro i hi
  rw [dailyLoads_singleton, if_neg, zero_mul]
  have hi7 : (i : ℤ) < 7 := by exact_mod_cast Finset.mem_range.mp hi
  have h90 : ⌊(runDay90.date : ℚ)⌋ = 90 := by norm_num [runDay90]
  have h100 : ⌊(100 : ℚ)⌋ = 100 := by norm_num
  rw [h90, h100]
  omega

theorem ctl_runDay90 (max_hr rest_hr : ℚ) :
    exponentialLoad max_hr rest_hr [runDay90] 100 42 =
      36 * Real.exp (-(10 : ℝ) / 42) / 42 := by
  unfold exponentialLoad
  have hterm : ∀ i ∈ Finset.range 42,
      dailyLoads max_hr rest_hr [runDay90] (⌊(100 : ℚ)⌋ - i) * Real.exp (-(i : ℝ) / (42 : ℕ))
        = if i = 10 then 36 * Real.exp (-(10 : ℝ) / 42) else 0 := by
    intro i hi
    rw [dailyLoads_singleton]
    have h90 : ⌊(runDay90.date : ℚ)⌋ = 90 := by norm_num [runDay90]
    by_cases h : i = 10
    · subst h
      rw [if_pos, if_pos rfl, load_runDay90]
      · norm_num
      · rw [h90]; norm_num
    · rw [if_neg, if_neg h, zero_mul]
      rw [h90]
      have : ⌊(100 : ℚ)⌋ = 100 := by norm_num
      rw [this]
      omega
  rw [Finset.sum_congr rfl hterm]
  rw [Finset.sum_ite_eq' (Finset.range 42) 10 (fun _ => 36 * Real.exp (-(10 : ℝ) / 42))]
  rw [if_pos (by norm_num : (10 : ℕ) ∈ Finset.range 42)]
  norm_num

/-- **C6 (counterexample).**  The single 60-minute run ten days ago leaves
the acute 7-day window empty while still contributing to the chronic 42-day
window, so the computed state has `ACWR = 0` with `CTL > 0`, refuting
"ACWR is zero if and only if chronic load is zero" (and "when CTL is
positive, ACWR is a positive value"). -/
theorem acwr_zero_with_positive_chronic_load :
    (calculateState 190 60 [runDay90] 100).acwr = 0 ∧
    0 < (calculateState 190 60 [runDay90] 100).chronic_load := by
  have hctl := ctl_runDay90 190 60
  have hatl := atl_runDay90 190 60
  have hctlpos : 0 < exponentialLoad 190 60 [runDay90] 100 42 := by
    rw [hctl]; positivity
  have hacwr : (calculateState 190 60 [runDay90] 100).acwr
      = if 0 < exponentialLoad 190 60 [runDay90] 100 42 then
          pyRound 2 (exponentialLoad 190 60 [runDay90] 100 7 /
            exponentialLoad 190 60 [runDay90] 100 42)
        else 0 := rfl
  have hchronic : (calculateState 190 60 [runDay90] 100).chronic_load
      = pyRound 1 (exponentialLoad 190 60 [runDay90] 100 42) := rfl
  constructor
  · rw [hacwr, if_pos hctlpos, hatl, zero_div, pyRound_zero]
  · rw [hchronic]
    apply pyRound_pos
    rw [hctl]
    have hexp : (16 : ℝ) / 21 ≤ Real.exp (-(10 : ℝ) / 42) := by
      have h := Real.add_one_le_exp (-(10 : ℝ) / 42)
      linarith
    rw [pow_one]
    nlinarith

/-- **C6 (amended).**  `ACWR = 0` whenever `CTL = 0` (including the empty
activity list), and when `CTL > 0` the ACWR field equals
`round(ATL/CTL, 2)` — which is nonnegative for nonneg loads but can itself
be 0 (e.g. when no load falls in the acute window), so zero ACWR does not
imply zero chronic load. -/
theorem acwr_zero_iff_amended (max_hr rest_hr : ℚ) (acts : List ActivityData) (now : ℚ) :
    (exponentialLoad max_hr rest_hr acts now 42 = 0 →
      (calculateState max_hr rest_hr acts now).acwr = 0) ∧
    (0 < exponentialLoad max_hr rest_hr acts now 42 →
      (calculateState max_hr rest_hr acts now).acwr =
        pyRound 2 (exponentialLoad max_hr rest_hr acts now 7 /
          exponentialLoad max_hr rest_hr acts now 42)) := by
  by_cases he : acts.isEmpty
  · have hnil : acts = [] := List.isEmpty_iff.mp he
    subst hnil
    have h0 : exponentialLoad max_hr rest_hr [] now 42 = 0 := exponentialLoad_nil _ _ _ _
    have hacwr : (calculateState max_hr rest_hr [] now).acwr = 0 := rfl
    exact ⟨fun _ => hacwr, fun hlt => absurd hlt (by rw [h0]; exact lt_irrefl 0)⟩
  · have hacwr : (calculateState max_hr rest_hr acts now).acwr
        = if 0 < exponentialLoad max_hr rest_hr acts now 42 then
            pyRound 2 (exponentialLoad max_hr rest_hr acts now 7 /
              exponentialLoad max_hr rest_hr acts now 42)
          else 0 := by
      unfold calculateState
      rw [if_neg he]
    constructor
    · intro h0
      rw [hacwr, if_neg]
      rw [h0]
      exact lt_irrefl 0
    · intro hlt
      rw [hacwr, if_pos hlt]

/-- Witness for the amended C6 at the empty activity list. -/
theorem acwr_zero_iff_amended_witness :
    exponentialLoad 190 60 [] 0 42 = 0 ∧ (calculateState 190 60 [] 0).acwr = 0 :=
  ⟨exponentialLoad_nil 190 60 0 42,
   (acwr_zero_iff_amended 190 60 [] 0).1 (exponentialLoad_nil 190 60 0 42)⟩

/-! ## Rich Decision Engine (`app/services/decision_engine.py`)

Only `action` and `confidence` of each `Decision` are modelled; every other
field (headline, reasoning, workouts, tips) is constant presentation text per
branch.  `perceived_effort` is accepted and ignored, as in the source (the
branch helpers receive but never read it). -/

/-- The optional `thresholds` dict: four optional keys with defaults
`(1.5, 1.3, -15.0, 10.0)` applied via `th.get(...)`. -/
structure Thresholds where
  acwr_danger : Option ℚ
  acwr_caution : Option ℚ
  tsb_fatigued : Option ℚ
  tsb_fresh : Option ℚ

structure RichDecision where
  action : String
  confidence : ℚ

namespace DecisionEngine

/-- `DecisionEngine.generate_decision`: the strict priority cascade of the
rich engine.  Branch actions: insufficient data → "moderate" (0.3), danger →
"active_recovery", caution → "easy", fatigued → "easy", fresh → "quality",
comeback → "moderate", default → "moderate". -/
noncomputable def generate_decision (state : AthleteState)
    (perceived_effort : Option ℕ) (thresholds : Option Thresholds) : RichDecision :=
  let th := thresholds.getD { acwr_danger := none, acwr_caution := none
                              tsb_fatigued := none, tsb_fresh := none }
  let acwr_danger : ℚ := th.acwr_danger.getD 1.5
  let acwr_caution : ℚ := th.acwr_caution.getD 1.3
  let tsb_fatigued : ℚ := th.tsb_fatigued.getD (-15.0)
  let tsb_fresh : ℚ := th.tsb_fresh.getD 10.0
  if state.activities_count < 3 then { action := "moderate", confidence := 0.3 }
  else if (acwr_danger : ℝ) < state.acwr ∨ state.injury_risk = "high" then
    { action := "active_recovery", confidence := 0.85 }
  else if (acwr_caution : ℝ) < state.acwr ∨ state.injury_risk = "moderate" then
    { action := "easy", confidence := 0.8 }
  else if state.training_stress_balance < (tsb_fatigued : ℝ) then
    { action := "easy", confidence := 0.75 }
  else if (tsb_fresh : ℝ) < state.training_stress_balance ∧ (5 : ℝ) < state.chronic_load then
    { action := "quality", confidence := 0.85 }
  else if 3 ≤ state.days_since_last then { action := "moderate", confidence := 0.7 }
  else { action := "moderate", confidence := 0.75 }

end DecisionEngine

/-! ## Terse router state calculator and decision (`app/routers/decision.py`)

These are the functions `run_compliance_inference` actually imports
(`from app.routers.decision import calculate_athlete_state, generate_decision`). -/

/-- A DB `Activity` row, restricted to the fields this code path reads.  The
lists passed around are already filtered to one user by the SQL query, so
`user_id` is not carried. -/
structure Activity where
  activity_type : String
  start_date : Option ℚ
  distance_km : ℚ
  duration_min : Option ℚ
  elevation_m : ℚ
  avg_hr : Option ℚ
  max_hr : Option ℚ
  avg_pace : Option ℚ
  deriving DecidableEq

/-- The state dict returned by the router's `calculate_athlete_state`. -/
structure RouterState where
  acute_load_atl : ℝ
  chronic_load_ctl : ℝ
  stress_balance_tsb : ℝ
  acwr : ℝ
  readiness_score : ℝ
  injury_risk : String

/-- The inner `trimp` helper: `duration * 0.5` without heart rate, else
`duration * hrr * (0.64 * 2.718 ** (1.92 * hrr))` with `hrr` clamped to
`[0.1, 1.0]`.  `float(x or 0)` maps both `None` and `0` to `0`. -/
noncomputable def routerTrimp (max_hr rest_hr : ℚ) (a : Activity) : ℝ :=
  let duration := a.duration_min.getD 0
  let hr := a.avg_hr.getD 0
  if duration ≤ 0 then 0
  else if hr ≤ 0 then (duration : ℝ) * 0.5
  else
    let hrr : ℚ := max 0.1 (min 1.0 ((hr - rest_hr) / (max_hr - rest_hr)))
    (duration : ℝ) * (hrr : ℝ) * ((0.64 : ℝ) * (2.718 : ℝ) ^ ((1.92 : ℝ) * (hrr : ℝ)))

/-- The inner `days_ago` helper: 999 for a missing start date, else the
(fractional) number of days between `now` and the start. -/
def routerDaysAgo (now : ℚ) (a : Activity) : ℚ :=
  match a.start_date with
  | none => 999
  | some t => now - t

/-- Accumulator of the router's activity loop. -/
structure RouterAcc where
  acute : ℝ
  chronic : ℝ
  count : ℕ

/-- One iteration of the router's loop over activities. -/
noncomputable def routerFold (max_hr rest_hr now : ℚ) (acc : RouterAcc) (a : Activity) :
    RouterAcc :=
  let d := routerDaysAgo now a
  let t := routerTrimp max_hr rest_hr a
  let acc1 :=
    if d ≤ 7 then { acc with acute := acc.acute + t * Real.exp (-(d : ℝ) / 7) } else acc
  if d ≤ 42 then
    { acc1 with chronic := acc1.chronic + t * Real.exp (-(d : ℝ) / 42)
                count := acc1.count + 1 }
  else acc1

/-- `calculate_athlete_state` of `app/routers/decision.py` (the version the
compliance backfill uses), with `now = datetime.utcnow()` as a parameter. -/
noncomputable def calculate_athlete_state (activities : List Activity)
    (max_hr rest_hr : ℚ) (now : ℚ) : RouterState :=
  let acc := activities.foldl (routerFold max_hr rest_hr now) ⟨0, 0, 0⟩
  let atl : ℝ := pyRound 1 (acc.acute * ((7 : ℝ) / ((max acc.count 1 : ℕ) : ℝ)) * 0.6)
  let ctl : ℝ := pyRound 1 (acc.chronic * ((42 : ℝ) / ((max (acc.count * 6) 1 : ℕ) : ℝ)) * 0.15)
  let tsb : ℝ := pyRound 1 (ctl - atl)
  let acwr : ℝ := if 0 < ctl then pyRound 2 (atl / ctl) else 0
  let r1 : ℝ :=
    if 1.5 < acwr then 100 - 60
    else if 1.3 < acwr then 100 - 30
    else if acwr < 0.7 then 100 - 10
    else 100
  let r2 : ℝ := if tsb < -20 then r1 - 30 else if tsb < -10 then r1 - 15 else r1
  let readiness : ℝ := max 0 (min 100 r2)
  let risk : String :=
    if readiness < 20 ∨ 1.5 < acwr then "high"
    else if readiness < 50 ∨ 1.3 < acwr then "moderate"
    else "low"
  { acute_load_atl := atl, chronic_load_ctl := ctl, stress_balance_tsb := tsb
    acwr := acwr, readiness_score := pyRound 1 readiness, injury_risk := risk }

/-- The action/confidence pair of the router's `generate_decision` dict. -/
structure RouterDecision where
  action : String
  confidence : ℚ

/-- `generate_decision` of `app/routers/decision.py`: the terse
single-suggestion cascade with actions "rest"/"reduce"/"increase"/"maintain". -/
noncomputable def generate_decision (state : RouterState) : RouterDecision :=
  if 1.5 < state.acwr ∨ state.readiness_score < 20 then
    { action := "rest", confidence := 0.92 }
  else if 1.3 < state.acwr ∨ state.injury_risk = "moderate" then
    { action := "reduce", confidence := 0.85 }
  else if 5 < state.stress_balance_tsb ∧ 0.7 ≤ state.acwr ∧ state.acwr < 1.0 then
    { action := "increase", confidence := 0.80 }
  else if 0 < state.acwr ∧ state.acwr < 0.7 then
    { action := "increase", confidence := 0.75 }
  else { action := "maintain", confidence := 0.88 }

/-! ## Compliance backfill (`run_compliance_inference`)

The per-day loop: for `days_ago` from `days_back` down to 1, build the
visible activity set with the strict `< day_end` cutoff, recompute the state
and decision through the router functions above, pick the day's main
activity, infer compliance and upsert one auto-inferred `DecisionFeedback`
row.  `scalar_one_or_none` returns the single match, `None`, or raises
`MultipleResultsFound` — the raise is caught by the per-day `except`, which
leaves the store untouched for that day. -/

/-- `day_start <= a.start_date < day_end` for the day starting at `dayStart`. -/
def activityOnDay (dayStart : ℚ) (a : Activity) : Bool :=
  match a.start_date with
  | some t => decide (dayStart ≤ t ∧ t < dayStart + 1)
  | none => false

/-- `a.start_date and a.start_date < day_end`: visible as of end of day. -/
def activityUntil (dayEnd : ℚ) (a : Activity) : Bool :=
  match a.start_date with
  | some t => decide (t < dayEnd)
  | none => false

/-- `activities_until_day`: the activity set used to compute the
reconstructed state of a day, a strict cutoff at the day's end. -/
def activitiesUntilDay (acts : List Activity) (dayEnd : ℚ) : List Activity :=
  acts.filter (activityUntil dayEnd)

/-- `max(day_activities, key=lambda a: a.duration_min or 0)` — Python `max`
keeps the first element among ties and replaces only on a strictly greater
key — or `None` for an empty day. -/
def mainActivity : List Activity → Option Activity
  | [] => none
  | a :: rest =>
      some (rest.foldl (fun m b =>
        if m.duration_min.getD 0 < b.duration_min.getD 0 then b else m) a)

/-- The WHERE clause of the upsert lookup: same user, `date` inside the
target day, `auto_inferred` set. -/
def feedbackKey (u : ℕ) (dayStart : ℚ) (r : FeedbackRecord) : Bool :=
  decide (r.user_id = u ∧ dayStart ≤ r.date ∧ r.date < dayStart + 1 ∧
    r.auto_inferred = true)

/-- Everything `run_compliance_inference` computes for one reconstructed day
before touching the store. -/
structure DayInference where
  action : String
  followed : Bool
  acwr : ℝ
  readiness : ℝ
  tsb : ℝ
  activity_avg_hr : Option ℚ
  activity_duration_min : Option ℚ
  detected_zone : String

/-- `dayInference`: state → decision → main activity → compliance for the
day starting at `target`.  `float(x) if main and main.x else None` maps a
missing main activity, a missing field and a zero field all to `None`. -/
noncomputable def dayInference (acts : List Activity) (max_hr rest_hr now target : ℚ) :
    DayInference :=
  let state := calculate_athlete_state (activitiesUntilDay acts (target + 1)) max_hr rest_hr now
  let action := (generate_decision state).action
  let m := mainActivity (acts.filter (activityOnDay target))
  let avg_hr : Option ℚ :=
    match m with
    | some ma => match ma.avg_hr with
      | some h => if h = 0 then none else some h
      | none => none
    | none => none
  let dur : Option ℚ :=
    match m with
    | some ma => match ma.duration_min with
      | some dv => if dv = 0 then none else some dv
      | none => none
    | none => none
  let fz := inferCompliance action avg_hr dur max_hr rest_hr
  { action := action, followed := fz.1, acwr := state.acwr
    readiness := state.readiness_score, tsb := state.stress_balance_tsb
    activity_avg_hr := avg_hr, activity_duration_min := dur, detected_zone := fz.2 }

/-- The field overwrite of the "update existing record" branch: everything
except id, user, date, note and the auto flag. -/
def applyInference (v : DayInference) (r : FeedbackRecord) : FeedbackRecord :=
  { r with followed := v.followed, action := v.action, acwr := v.acwr
           readiness := v.readiness, tsb := v.tsb
           activity_avg_hr := v.activity_avg_hr
           activity_duration_min := v.activity_duration_min
           detected_zone := some v.detected_zone }

/-- The freshly inserted auto-inferred `DecisionFeedback` row. -/
def newFeedbackRecord (u : ℕ) (target : ℚ) (v : DayInference) : FeedbackRecord :=
  { user_id := u, date := target, action := v.action, followed := v.followed
    acwr := v.acwr, readiness := v.readiness, tsb := v.tsb, note := none
    auto_inferred := true, activity_avg_hr := v.activity_avg_hr
    activity_duration_min := v.activity_duration_min
    detected_zone := some v.detected_zone }

/-- One iteration of the backfill loop (`days_ago` days before today): skip
if nothing is visible yet, else infer and upsert.  The `match` models
`scalar_one_or_none`: no match → insert, one match → update, several →
`MultipleResultsFound`, caught by the per-day `except` (store unchanged). -/
noncomputable def backfillStep (u : ℕ) (acts : List Activity) (max_hr rest_hr now : ℚ)
    (store : List FeedbackRecord) (days_ago : ℕ) : List FeedbackRecord :=
  -- `target_date = today - timedelta(days=days_ago)` and the day's computed
  -- values are written out in full at each use site below.
  if (activitiesUntilDay acts ((⌊now⌋ : ℚ) - days_ago + 1)).isEmpty then store
  else
    match store.filter (feedbackKey u ((⌊now⌋ : ℚ) - days_ago)) with
    | [] => store ++ [newFeedbackRecord u ((⌊now⌋ : ℚ) - days_ago)
        (dayInference acts max_hr rest_hr now ((⌊now⌋ : ℚ) - days_ago))]
    | [_] => store.map (fun r =>
        if feedbackKey u ((⌊now⌋ : ℚ) - days_ago) r then
          applyInference (dayInference acts max_hr rest_hr now ((⌊now⌋ : ℚ) - days_ago)) r
        else r)
    | _ => store

/-- `run_compliance_inference`: the loop `for days_ago in
range(days_back, 0, -1)` over the store.  (`[days_back, ..., 1]`.) -/
noncomputable def run_compliance_inference (u : ℕ) (acts : List Activity)
    (max_hr rest_hr now : ℚ) (days_back : ℕ) (store : List FeedbackRecord) :
    List FeedbackRecord :=
  ((List.range days_back).reverse.map (· + 1)).foldl
    (backfillStep u acts max_hr rest_hr now) store

/-! ### C2: the strict visible-as-of-end-of-day cutoff -/

theorem activityUntil_iff (dayEnd : ℚ) (a : Activity) :
    activityUntil dayEnd a = true ↔ ∃ t, a.start_date = some t ∧ t < dayEnd := by
  cases h : a.start_date <;> simp [activityUntil, h]

/-- **C2.** The activity set a backfill day is reconstructed from contains
exactly the activities whose start timestamp is strictly before that day's
end, and an activity starting at or after the boundary never belongs to it. -/
theorem visible_set_strict_cutoff (acts : List Activity) (now : ℚ) (days_ago : ℕ) :
    (∀ a, a ∈ activitiesUntilDay acts ((⌊now⌋ : ℚ) - days_ago + 1) ↔
      a ∈ acts ∧ ∃ t, a.start_date = some t ∧ t < (⌊now⌋ : ℚ) - days_ago + 1) ∧
    (∀ a t, a.start_date = some t → (⌊now⌋ : ℚ) - days_ago + 1 ≤ t →
      a ∉ activitiesUntilDay acts ((⌊now⌋ : ℚ) - days_ago + 1)) := by
  constructor
  · intro a
    rw [activitiesUntilDay, List.mem_filter, activityUntil_iff]
  · intro a t hsome hle hmem
    rw [activitiesUntilDay, List.mem_filter, activityUntil_iff] at hmem
    obtain ⟨-, t', hsome', hlt⟩ := hmem
    rw [hsome] at hsome'
    cases hsome'
    exact absurd hlt (not_lt.mpr hle)

/-- Concrete activities for the C1/C2 witnesses: a zero-duration run on day
95 and a run on day 96 (the first day *not* visible when reconstructing day
95 with `now = 100`). -/
def actDay95 : Activity :=
  { activity_type := "Run", start_date := some 95, distance_km := 0
    duration_min := some 0, elevation_m := 0, avg_hr := none, max_hr := none
    avg_pace := none }

def actDay96 : Activity :=
  { activity_type := "Run", start_date := some 96, distance_km := 0
    duration_min := some 60, elevation_m := 0, avg_hr := none, max_hr := none
    avg_pace := none }

/-- Witness for C2 with `now = 100`, `days_ago = 5` (day 95, end of day 96):
the day-95 activity is visible, the day-96 one is excluded. -/
theorem visible_set_strict_cutoff_witness :
    actDay95 ∈ activitiesUntilDay [actDay95, actDay96] ((⌊(100 : ℚ)⌋ : ℚ) - 5 + 1) ∧
    actDay96 ∉ activitiesUntilDay [actDay95, actDay96] ((⌊(100 : ℚ)⌋ : ℚ) - 5 + 1) := by
  constructor
  · exact (visible_set_strict_cutoff [actDay95, actDay96] 100 5).1 actDay95 |>.mpr
      ⟨by simp, 95, rfl, by norm_num⟩
  · exact (visible_set_strict_cutoff [actDay95, actDay96] 100 5).2 actDay96 96 rfl
      (by norm_num)

/-! ### Upsert machinery: how `backfillStep` transforms the record store -/

theorem feedbackKey_applyInference (u' : ℕ) (t : ℚ) (v : DayInference)
    (r : FeedbackRecord) :
    feedbackKey u' t (applyInference v r) = feedbackKey u' t r := rfl

theorem applyInference_idem (v : DayInference) (r : FeedbackRecord) :
    applyInference v (applyInference v r) = applyInference v r := rfl

theorem applyInference_new (u : ℕ) (t : ℚ) (v : DayInference) :
    applyInference v (newFeedbackRecord u t v) = newFeedbackRecord u t v := rfl

theorem feedbackKey_new (u : ℕ) (t : ℚ) (v : DayInference) :
    feedbackKey u t (newFeedbackRecord u t v) = true := by
  have h1 : t < t + 1 := lt_add_one t
  simp [feedbackKey, newFeedbackRecord, h1]

/-- Two key predicates whose day starts are at least one day apart never
match the same record. -/
theorem feedbackKey_disjoint {r : FeedbackRecord} {u₁ u₂ : ℕ} {t t' : ℚ}
    (hdist : 1 ≤ |t - t'|) (h : feedbackKey u₁ t r = true) :
    feedbackKey u₂ t' r = false := by
  simp only [feedbackKey, decide_eq_true_eq] at h
  simp only [feedbackKey, decide_eq_false_iff_not]
  rintro ⟨-, h1, h2, -⟩
  obtain ⟨-, h3, h4, -⟩ := h
  rcases abs_cases (t - t') with ⟨he, -⟩ | ⟨he, -⟩ <;> rw [he] at hdist <;> linarith

/-- Keys at distinct `(user, integer day)` pairs never match the same
record. -/
theorem feedbackKey_int_disjoint {r : FeedbackRecord} {u₁ u₂ : ℕ} {d₁ d₂ : ℤ}
    (hne : ¬(u₂ = u₁ ∧ d₂ = d₁)) (h : feedbackKey u₁ (d₁ : ℚ) r = true) :
    feedbackKey u₂ (d₂ : ℚ) r = false := by
  by_cases hu : u₂ = u₁
  · have hd : d₂ ≠ d₁ := fun hd => hne ⟨hu, hd⟩
    apply feedbackKey_disjoint _ h
    have : (1 : ℚ) ≤ |((d₁ - d₂ : ℤ) : ℚ)| := by
      rw [← Int.cast_abs]
      exact_mod_cast Int.one_le_abs (by omega)
    calc (1 : ℚ) ≤ |((d₁ - d₂ : ℤ) : ℚ)| := this
      _ = |(d₁ : ℚ) - (d₂ : ℚ)| := by push_cast; ring_nf
  · simp only [feedbackKey, decide_eq_true_eq] at h
    simp only [feedbackKey, decide_eq_false_iff_not]
    rintro ⟨hu2, -⟩
    exact hu (hu2.symm.trans h.1)

theorem filter_map_comm {α : Type} (p : α → Bool) (f : α → α) (l : List α)
    (hpf : ∀ x, p (f x) = p x) :
    (l.map f).filter p = (l.filter p).map f := by
  induction l with
  | nil => rfl
  | cons a l ih =>
      simp only [List.map_cons, List.filter_cons, hpf a]
      cases hpa : p a
      · simpa using ih
      · simpa using ih

/-- The day start used by the backfill for `days_ago = k` is an integer day. -/
theorem targetDay_cast (now : ℚ) (k : ℕ) :
    (⌊now⌋ : ℚ) - (k : ℚ) = ((⌊now⌋ - (k : ℤ) : ℤ) : ℚ) := by
  push_cast
  ring

/-- A backfill step for one day leaves the records of every *other*
`(user, day)` key untouched. -/
theorem backfillStep_filter_other (u : ℕ) (acts : List Activity)
    (mh rh now : ℚ) (s : List FeedbackRecord) (k : ℕ) (u' : ℕ) (t : ℚ)
    (hdisj : ∀ r, feedbackKey u ((⌊now⌋ : ℚ) - k) r = true →
      feedbackKey u' t r = false) :
    (backfillStep u acts mh rh now s k).filter (feedbackKey u' t) =
      s.filter (feedbackKey u' t) := by
  unfold backfillStep
  split
  · rfl
  · rcases hf : s.filter (feedbackKey u ((⌊now⌋ : ℚ) - k)) with - | ⟨r, - | ⟨r2, rest⟩⟩ <;>
      simp only [hf]
    · rw [List.filter_append]
      have : feedbackKey u' t (newFeedbackRecord u ((⌊now⌋ : ℚ) - k)
          (dayInference acts mh rh now ((⌊now⌋ : ℚ) - k))) = false :=
        hdisj _ (feedbackKey_new _ _ _)
      simp [this]
    · rw [filter_map_comm]
      · have hid : ∀ x ∈ s.filter (feedbackKey u' t),
            (fun r => if feedbackKey u ((⌊now⌋ : ℚ) - k) r then
              applyInference (dayInference acts mh rh now ((⌊now⌋ : ℚ) - k)) r else r) x = x := by
          intro x hx
          have hpx : feedbackKey u' t x = true := (List.mem_filter.mp hx).2
          have hkx : feedbackKey u ((⌊now⌋ : ℚ) - k) x = false := by
            cases hkx : feedbackKey u ((⌊now⌋ : ℚ) - k) x
            · rfl
            · rw [hdisj x hkx] at hpx
              exact absurd hpx (by simp)
          simp [hkx]
        calc (s.filter (feedbackKey u' t)).map _
            = (s.filter (feedbackKey u' t)).map id := List.map_congr_left hid
          _ = s.filter (feedbackKey u' t) := List.map_id _
      · intro x
        by_cases hkx : feedbackKey u ((⌊now⌋ : ℚ) - k) x = true
        · simp [hkx, feedbackKey_applyInference]
        · simp [hkx]

/-- A processed backfill step leaves exactly one record at its own key, and
that record is a fixed point of the day's field overwrite (either the fresh
insert or the just-updated row). -/
theorem backfillStep_filter_self (u : ℕ) (acts : List Activity)
    (mh rh now : ℚ) (s : List FeedbackRecord) (k : ℕ)
    (hproc : (activitiesUntilDay acts ((⌊now⌋ : ℚ) - k + 1)).isEmpty = false)
    (hcount : (s.filter (feedbackKey u ((⌊now⌋ : ℚ) - k))).length ≤ 1) :
    ∃ r, (backfillStep u acts mh rh now s k).filter (feedbackKey u ((⌊now⌋ : ℚ) - k)) = [r] ∧
      applyInference (dayInference acts mh rh now ((⌊now⌋ : ℚ) - k)) r = r := by
  unfold backfillStep
  rw [if_neg (by rw [hproc]; exact Bool.false_ne_true)]
  rcases hf : s.filter (feedbackKey u ((⌊now⌋ : ℚ) - k)) with - | ⟨r, - | ⟨r2, rest⟩⟩
  · refine ⟨newFeedbackRecord u ((⌊now⌋ : ℚ) - k) (dayInference acts mh rh now ((⌊now⌋ : ℚ) - k)),
      ?_, applyInference_new _ _ _⟩
    simp only [hf]
    rw [List.filter_append, hf]
    simp [feedbackKey_new]
  · have hkr : feedbackKey u ((⌊now⌋ : ℚ) - k) r = true := by
      have : r ∈ s.filter (feedbackKey u ((⌊now⌋ : ℚ) - k)) := by
        rw [hf]; exact List.mem_singleton_self r
      exact (List.mem_filter.mp this).2
    refine ⟨applyInference (dayInference acts mh rh now ((⌊now⌋ : ℚ) - k)) r, ?_,
      applyInference_idem _ _⟩
    simp only [hf]
    rw [filter_map_comm]
    · rw [hf]
      simp [hkr]
    · intro x
      by_cases hkx : feedbackKey u ((⌊now⌋ : ℚ) - k) x = true
      · simp [hkx, feedbackKey_applyInference]
      · simp [hkx]
  · exfalso
    rw [hf] at hcount
    simp at hcount

/-- At most one auto-inferred record per `(user, calendar day)`. -/
def atMostOneAutoPerDay (s : List FeedbackRecord) : Prop :=
  ∀ (u' : ℕ) (d : ℤ), (s.filter (feedbackKey u' (d : ℚ))).length ≤ 1

theorem backfillStep_inv (u : ℕ) (acts : List Activity) (mh rh now : ℚ)
    (s : List FeedbackRecord) (k : ℕ) (hinv : atMostOneAutoPerDay s) :
    atMostOneAutoPerDay (backfillStep u acts mh rh now s k) := by
  intro u' d
  by_cases hsame : u' = u ∧ d = ⌊now⌋ - (k : ℤ)
  · obtain ⟨h1, h2⟩ := hsame
    rw [h1, h2, ← targetDay_cast]
    cases hproc : (activitiesUntilDay acts ((⌊now⌋ : ℚ) - k + 1)).isEmpty
    · obtain ⟨r, hr, -⟩ := backfillStep_filter_self u acts mh rh now s k hproc
        (by rw [targetDay_cast]; exact hinv u _)
      rw [hr]
      simp
    · unfold backfillStep
      rw [if_pos hproc, targetDay_cast]
      exact hinv u _
  · rw [backfillStep_filter_other u acts mh rh now s k u' (d : ℚ) ?_]
    · exact hinv u' d
    · intro r hr
      rw [targetDay_cast] at hr
      exact feedbackKey_int_disjoint hsame hr

theorem foldl_backfillStep_inv (u : ℕ) (acts : List Activity) (mh rh now : ℚ)
    (ks : List ℕ) (s : List FeedbackRecord) (hinv : atMostOneAutoPerDay s) :
    atMostOneAutoPerDay (ks.foldl (backfillStep u acts mh rh now) s) := by
  induction ks generalizing s with
  | nil => exact hinv
  | cons k rest ih => exact ih _ (backfillStep_inv u acts mh rh now s k hinv)

theorem foldl_backfillStep_filter_other (u : ℕ) (acts : List Activity)
    (mh rh now : ℚ) (ks : List ℕ) (s : List FeedbackRecord) (u' : ℕ) (t : ℚ)
    (hdisj : ∀ k ∈ ks, ∀ r, feedbackKey u ((⌊now⌋ : ℚ) - k) r = true →
      feedbackKey u' t r = false) :
    (ks.foldl (backfillStep u acts mh rh now) s).filter (feedbackKey u' t) =
      s.filter (feedbackKey u' t) := by
  induction ks generalizing s with
  | nil => rfl
  | cons k rest ih =>
      rw [List.foldl_cons, ih _ (fun k' hk' => hdisj k' (List.mem_cons_of_mem _ hk')),
        backfillStep_filter_other u acts mh rh now s k u' t
          (hdisj k (List.mem_cons_self k rest))]

/-- After a whole backfill run, every processed day of the window carries
exactly one auto-inferred record at its key, and that record holds exactly
the values recomputed for that day. -/
theorem foldl_backfillStep_key_spec (u : ℕ) (acts : List Activity)
    (mh rh now : ℚ) (ks : List ℕ) (s : List FeedbackRecord) (k : ℕ)
    (hnd : ks.Nodup) (hmem : k ∈ ks)
    (hproc : (activitiesUntilDay acts ((⌊now⌋ : ℚ) - k + 1)).isEmpty = false)
    (hinv : atMostOneAutoPerDay s) :
    ∃ r, (ks.foldl (backfillStep u acts mh rh now) s).filter
        (feedbackKey u ((⌊now⌋ : ℚ) - k)) = [r] ∧
      applyInference (dayInference acts mh rh now ((⌊now⌋ : ℚ) - k)) r = r := by
  induction ks generalizing s with
  | nil => cases hmem
  | cons k' rest ih =>
      rcases List.mem_cons.mp hmem with rfl | hk
      · obtain ⟨r, hr, hfix⟩ := backfillStep_filter_self u acts mh rh now s k hproc
          (by rw [targetDay_cast]; exact hinv u _)
        refine ⟨r, ?_, hfix⟩
        rw [List.foldl_cons,
          foldl_backfillStep_filter_other u acts mh rh now rest _ u _ ?_, hr]
        intro k'' hk'' r' hr'
        have hne : k'' ≠ k := fun h =>
          (List.nodup_cons.mp hnd).1 (h ▸ hk'')
        rw [targetDay_cast] at hr' ⊢
        refine feedbackKey_int_disjoint ?_ hr'
        rintro ⟨-, hd⟩
        have : (k : ℤ) = (k'' : ℤ) := by omega
        exact hne (by exact_mod_cast this.symm)
      · rw [List.foldl_cons]
        exact ih _ (List.nodup_cons.mp hnd).2 hk
          (backfillStep_inv u acts mh rh now s k' hinv)

/-! ### The backfill window `[days_back, ..., 1]` -/

theorem windowDays_nodup (days_back : ℕ) :
    ((List.range days_back).reverse.map (· + 1)).Nodup := by
  apply List.Nodup.map
  · exact add_left_injective 1
  · exact List.nodup_reverse.mpr (List.nodup_range _)

theorem mem_windowDays {days_back k : ℕ} :
    k ∈ (List.range days_back).reverse.map (· + 1) ↔ 1 ≤ k ∧ k ≤ days_back := by
  simp only [List.mem_map, List.mem_reverse, List.mem_range]
  constructor
  · rintro ⟨a, ha, rfl⟩
    omega
  · rintro ⟨h1, h2⟩
    exact ⟨k - 1, by omega, by omega⟩

/-- A step whose key already carries exactly one fresh record (or which is
skipped) leaves the store unchanged. -/
theorem backfillStep_fixed (u : ℕ) (acts : List Activity) (mh rh now : ℚ)
    (s₁ : List FeedbackRecord) (k : ℕ)
    (hspec : (activitiesUntilDay acts ((⌊now⌋ : ℚ) - k + 1)).isEmpty = false →
      ∃ r, s₁.filter (feedbackKey u ((⌊now⌋ : ℚ) - k)) = [r] ∧
        applyInference (dayInference acts mh rh now ((⌊now⌋ : ℚ) - k)) r = r) :
    backfillStep u acts mh rh now s₁ k = s₁ := by
  unfold backfillStep
  cases hproc : (activitiesUntilDay acts ((⌊now⌋ : ℚ) - k + 1)).isEmpty
  · obtain ⟨r, hr, hfix⟩ := hspec hproc
    rw [if_neg Bool.false_ne_true]
    simp only [hr]
    have hid : ∀ x ∈ s₁,
        (if feedbackKey u ((⌊now⌋ : ℚ) - k) x then
          applyInference (dayInference acts mh rh now ((⌊now⌋ : ℚ) - k)) x else x) = x := by
      intro x hx
      by_cases hkx : feedbackKey u ((⌊now⌋ : ℚ) - k) x = true
      · have hxr : x = r := by
          have hmem : x ∈ s₁.filter (feedbackKey u ((⌊now⌋ : ℚ) - k)) :=
            List.mem_filter.mpr ⟨hx, hkx⟩
          rw [hr] at hmem
          simpa using hmem
        rw [if_pos hkx, hxr, hfix]
      · rw [if_neg hkx]
    calc s₁.map _ = s₁.map id := List.map_congr_left hid
      _ = s₁ := List.map_id _
  · rw [if_pos rfl]

theorem foldl_backfillStep_fixed (u : ℕ) (acts : List Activity) (mh rh now : ℚ)
    (ks : List ℕ) (s₁ : List FeedbackRecord)
    (hfix : ∀ k ∈ ks, backfillStep u acts mh rh now s₁ k = s₁) :
    ks.foldl (backfillStep u acts mh rh now) s₁ = s₁ := by
  induction ks with
  | nil => rfl
  | cons k rest ih =>
      rw [List.foldl_cons, hfix k (List.mem_cons_self k rest)]
      exact ih (fun k' hk' => hfix k' (List.mem_cons_of_mem _ hk'))

/-- **C3.** Starting from a store with at most one auto-inferred record per
`(user, day)` — the invariant every store reachable by this code satisfies,
since only the backfill writes auto-inferred rows — running the backfill a
second time over the same window changes nothing at all (every processed day
finds its freshly upserted record and overwrites it with identical values),
and in particular the result still has at most one auto-inferred record per
`(user, day)`. -/
theorem backfill_twice_idempotent (u : ℕ) (acts : List Activity) (mh rh now : ℚ)
    (days_back : ℕ) (store : List FeedbackRecord)
    (hinv : atMostOneAutoPerDay store) :
    run_compliance_inference u acts mh rh now days_back
        (run_compliance_inference u acts mh rh now days_back store) =
      run_compliance_inference u acts mh rh now days_back store ∧
    atMostOneAutoPerDay
      (run_compliance_inference u acts mh rh now days_back
        (run_compliance_inference u acts mh rh now days_back store)) := by
  have hinv1 : atMostOneAutoPerDay
      (run_compliance_inference u acts mh rh now days_back store) :=
    foldl_backfillStep_inv u acts mh rh now _ store hinv
  have heq : run_compliance_inference u acts mh rh now days_back
      (run_compliance_inference u acts mh rh now days_back store) =
      run_compliance_inference u acts mh rh now days_back store := by
    unfold run_compliance_inference
    apply foldl_backfillStep_fixed
    intro k hk
    apply backfillStep_fixed
    intro hproc
    exact foldl_backfillStep_key_spec u acts mh rh now _ store k
      (windowDays_nodup days_back) hk hproc hinv
  exact ⟨heq, by rw [heq]; exact hinv1⟩

/-- Witness for C3 at a concrete empty store and window. -/
theorem backfill_twice_idempotent_witness :
    run_compliance_inference 0 [actDay95] 190 60 100 7
        (run_compliance_inference 0 [actDay95] 190 60 100 7 []) =
      run_compliance_inference 0 [actDay95] 190 60 100 7 [] ∧
    atMostOneAutoPerDay
      (run_compliance_inference 0 [actDay95] 190 60 100 7
        (run_compliance_inference 0 [actDay95] 190 60 100 7 [])) :=
  backfill_twice_idempotent 0 [actDay95] 190 60 100 7 []
    (fun u' d => by simp [List.filter])

/-- **C1 (amended).** For every processed day of the backfill window
(starting from a store satisfying the per-day uniqueness invariant), the
auto-inferred record left for that day carries exactly the action of the
*terse router-level* `generate_decision` applied to the state the
router-level `calculate_athlete_state` computes from the truncated
(visible-as-of-end-of-day) activity list — not the action of the richer
`DecisionEngine`. -/
theorem backfill_action_refines_router_decision (u : ℕ) (acts : List Activity)
    (mh rh now : ℚ) (days_back : ℕ) (store : List FeedbackRecord) (k : ℕ)
    (hinv : atMostOneAutoPerDay store) (hk1 : 1 ≤ k) (hk2 : k ≤ days_back)
    (hproc : (activitiesUntilDay acts ((⌊now⌋ : ℚ) - k + 1)).isEmpty = false) :
    ∃ r, (run_compliance_inference u acts mh rh now days_back store).filter
        (feedbackKey u ((⌊now⌋ : ℚ) - k)) = [r] ∧
      r.action = (generate_decision (calculate_athlete_state
        (activitiesUntilDay acts ((⌊now⌋ : ℚ) - k + 1)) mh rh now)).action := by
  obtain ⟨r, hr, hfix⟩ := foldl_backfillStep_key_spec u acts mh rh now _ store k
    (windowDays_nodup days_back) (mem_windowDays.mpr ⟨hk1, hk2⟩) hproc hinv
  refine ⟨r, hr, ?_⟩
  calc r.action
      = (applyInference (dayInference acts mh rh now ((⌊now⌋ : ℚ) - k)) r).action := by
        rw [hfix]
    _ = (dayInference acts mh rh now ((⌊now⌋ : ℚ) - k)).action := rfl
    _ = (generate_decision (calculate_athlete_state
          (activitiesUntilDay acts ((⌊now⌋ : ℚ) - k + 1)) mh rh now)).action := rfl

/-! ### C1: concrete evaluation of both engines on the day-95 window -/

/-- The `ActivityData` view of `actDay95` (same fields, for the
`AthleteStateCalculator` input type of the richer pipeline). -/
def actDay95Data : ActivityData :=
  { date := 95, activity_type := "Run", duration_min := 0, distance_km := 0
    elevation_m := 0, avg_hr := none, max_hr := none, avg_pace := none }

theorem untilDay95_eval :
    activitiesUntilDay [actDay95] ((⌊(100 : ℚ)⌋ : ℚ) - ((5 : ℕ) : ℚ) + 1) = [actDay95] := by
  norm_num [activitiesUntilDay, activityUntil, actDay95, List.filter]

theorem untilDay95_processed :
    (activitiesUntilDay [actDay95] ((⌊(100 : ℚ)⌋ : ℚ) - ((5 : ℕ) : ℚ) + 1)).isEmpty = false := by
  rw [untilDay95_eval]
  rfl

theorem routerState_actDay95 :
    calculate_athlete_state [actDay95] 190 60 100 =
      { acute_load_atl := 0, chronic_load_ctl := 0, stress_balance_tsb := 0
        acwr := 0, readiness_score := 90, injury_risk := "low" } := by
  have hacc : [actDay95].foldl (routerFold 190 60 100) ⟨0, 0, 0⟩ = ⟨0, 0, 1⟩ := by
    show routerFold 190 60 100 ⟨0, 0, 0⟩ actDay95 = ⟨0, 0, 1⟩
    unfold routerFold routerTrimp routerDaysAgo actDay95
    norm_num
  have h90 : pyRound 1 (90 : ℝ) = 90 := by
    rw [show (90 : ℝ) = ((90 : ℤ) : ℝ) by norm_num, pyRound_intCast]
  unfold calculate_athlete_state
  rw [hacc]
  norm_num [pyRound_zero, h90]

theorem routerAction_actDay95 :
    (generate_decision (calculate_athlete_state [actDay95] 190 60 100)).action
      = "maintain" := by
  rw [routerState_actDay95]
  unfold generate_decision
  norm_num
  rw [if_neg (by decide : ¬("low" = "moderate"))]

theorem richAction_actDay95 :
    (DecisionEngine.generate_decision (calculateState 190 60 [actDay95Data] 100)
      none none).action = "moderate" := by
  have hcount : (calculateState 190 60 [actDay95Data] 100).activities_count = 1 := rfl
  unfold DecisionEngine.generate_decision
  rw [if_pos (by rw [hcount]; norm_num)]

/-- **C1 (counterexample).**  The backfill derives its per-day action through
the terse router decision cascade, not the richer `DecisionEngine`: for the
single zero-duration run on day 95 (window `now = 100`, 7 days back, empty
store), the recorded action for day 95 is "maintain", while the richer
engine applied to the `AthleteState` computed from the same truncated list
(same fields, `ActivityData` view) answers "moderate".  The two engines'
action vocabularies ({rest, reduce, increase, maintain} versus
{active_recovery, easy, quality, moderate}) are in fact disjoint. -/
theorem backfill_action_ne_rich_engine_action :
    ((run_compliance_inference 0 [actDay95] 190 60 100 7 []).filter
        (feedbackKey 0 ((⌊(100 : ℚ)⌋ : ℚ) - ((5 : ℕ) : ℚ)))).map
      (fun r => r.action) = ["maintain"] ∧
    (DecisionEngine.generate_decision (calculateState 190 60 [actDay95Data] 100)
        none none).action = "moderate" ∧
    ("maintain" : String) ≠ "moderate" := by
  refine ⟨?_, richAction_actDay95, by decide⟩
  obtain ⟨r, hr, hfix⟩ := foldl_backfillStep_key_spec 0 [actDay95] 190 60 100
    ((List.range 7).reverse.map (· + 1)) [] 5 (windowDays_nodup 7)
    (mem_windowDays.mpr ⟨by norm_num, by norm_num⟩) untilDay95_processed
    (fun u' d => by simp [List.filter])
  have hract : r.action = "maintain" := by
    calc r.action
        = (applyInference (dayInference [actDay95] 190 60 100
            ((⌊(100 : ℚ)⌋ : ℚ) - ((5 : ℕ) : ℚ))) r).action := by rw [hfix]
      _ = (generate_decision (calculate_athlete_state
            (activitiesUntilDay [actDay95] ((⌊(100 : ℚ)⌋ : ℚ) - ((5 : ℕ) : ℚ) + 1))
            190 60 100)).action := rfl
      _ = "maintain" := by rw [untilDay95_eval, routerAction_actDay95]
  unfold run_compliance_inference
  rw [hr, List.map_cons, List.map_nil, hract]

/-- Witness for the amended C1 at the same concrete window. -/
theorem backfill_action_refines_router_decision_witness :
    ∃ r, (run_compliance_inference 0 [actDay95] 190 60 100 7 []).filter
        (feedbackKey 0 ((⌊(100 : ℚ)⌋ : ℚ) - ((5 : ℕ) : ℚ))) = [r] ∧
      r.action = (generate_decision (calculate_athlete_state
        (activitiesUntilDay [actDay95] ((⌊(100 : ℚ)⌋ : ℚ) - ((5 : ℕ) : ℚ) + 1))
        190 60 100)).action :=
  backfill_action_refines_router_decision 0 [actDay95] 190 60 100 7 [] 5
    (fun u' d => by simp [List.filter]) (by norm_num) (by norm_num)
    untilDay95_processed

end Morphy
